import Mathlib

/-!
Verification development for the schema type system and validation engine of
the hyperindex code generator (`codegenerator/cli/src/config_parsing/entity_parsing.rs`
and `codegenerator/src/config_parsing/validation.rs`).

The Rust data model is embedded shallowly: `HashMap<String, T>` values keyed by
name become association lists (`List T` looked up through `List.find?` on the
`name` component), `anyhow::Result<T>` becomes `Except String T`, and the `?`
early-return operator becomes `Except` bind.  Helper code of the repository
that lives outside the sources given here (the reserved-word tables, the
`unique_hashmap` and capitalization helpers) is modelled from the spec and
marked as such in its doc comment.
-/

namespace EntityParsing

/-- `is_valid_postgres_db_name` from `config_parsing/validation.rs`: the name
must match the anchored regex `[a-zA-Z_][a-zA-Z0-9_]` with at most 62 tail
characters, i.e. it starts with an ASCII letter or underscore, continues with
ASCII letters, digits or underscores, and has length at most 63. -/
def is_valid_postgres_db_name (name : String) : Bool :=
  match name.data with
  | [] => false
  | c :: cs =>
    (c.isAlpha || c == '_') &&
      cs.all (fun d => d.isAlphanum || d == '_') &&
      name.length ≤ 63

/-- Modelled from the spec: the fixed reserved-word set (`RESERVED_WORDS` in
`config_parsing/constants.rs`, which is not among the given sources).  The
spec describes it as a static set of identifiers colliding with generated-code
or storage-engine syntax; the repository tests flag the words break, import,
and, with, match. -/
def RESERVED_WORDS : List String :=
  ["break", "import", "and", "with", "match", "let", "module", "type",
   "return", "async", "await", "open", "mod", "fn", "struct", "enum"]

/-- Modelled from the spec: `check_names_from_schema_for_reserved_words`
(declared in `config_parsing/validation.rs` of the cli crate, not among the
given sources).  Per the spec, the union of enum names, enum values, entity
names and field names must not intersect the reserved-word set; the function
returns the offending names. -/
def check_names_from_schema_for_reserved_words (names : List String) : List String :=
  names.filter (fun n => n ∈ RESERVED_WORDS)

/-- Modelled from the spec: the framework-internal reserved enum identifiers
used by `check_enums_for_internal_reserved_words` (not among the given
sources). -/
def INTERNAL_RESERVED_ENUM_NAMES : List String :=
  ["EVENT_TYPE", "ENTITY_TYPE", "CONTRACT_TYPE"]

/-- Modelled from the spec: `check_enums_for_internal_reserved_words` (not
among the given sources): no enum type name may equal a framework-internal
reserved identifier; the function returns the offending names. -/
def check_enums_for_internal_reserved_words (names : List String) : List String :=
  names.filter (fun n => n ∈ INTERNAL_RESERVED_ENUM_NAMES)

/-- Alias for the string type, usable inside namespaces whose own `String`
constructor shadows it. -/
abbrev Str : Type := String

/-- `GqlScalar` from `entity_parsing.rs`: built-in scalar kinds plus `Custom`
holding the referenced type name. -/
inductive GqlScalar where
  | ID
  | String
  | Int
  | Float
  | Boolean
  | BigInt
  | Bytes
  | Custom (name : String)
deriving DecidableEq, Repr

/-- The `strum_macros::Display` derive on `GqlScalar` prints the bare variant
name (fields of `Custom` are not shown by the default derive). -/
def GqlScalar.to_string : GqlScalar → Str
  | .ID => "ID"
  | .String => "String"
  | .Int => "Int"
  | .Float => "Float"
  | .Boolean => "Boolean"
  | .BigInt => "BigInt"
  | .Bytes => "Bytes"
  | .Custom _ => "Custom"

/-- `UserDefinedFieldType`: the recursive field-type algebra. -/
inductive UserDefinedFieldType where
  | Single (scalar : GqlScalar)
  | ListType (t : UserDefinedFieldType)
  | NonNullType (t : UserDefinedFieldType)
deriving DecidableEq, Repr

/-- `FieldType`: either a regular field or a virtual derived-from field. -/
inductive FieldType where
  | DerivedFromField (entity_name : String) (derived_from_field : String)
  | RegularField (t : UserDefinedFieldType)
deriving DecidableEq, Repr

/-- `Field`: a named field with its type. -/
structure Field where
  name : String
  field_type : FieldType
deriving DecidableEq, Repr

/-- `Entity`: name plus fields.  The Rust `HashMap<String, Field>` keyed by
field name is modelled as a list looked up by name. -/
structure Entity where
  name : String
  fields : List Field
deriving DecidableEq, Repr

/-- `GraphQLEnum`: name plus ordered values. -/
structure GraphQLEnum where
  name : String
  values : List String
deriving DecidableEq, Repr

/-- `Schema`: entity map and enum map, both keyed by name. -/
structure Schema where
  entities : List Entity
  enums : List GraphQLEnum
deriving DecidableEq, Repr

/-- `TypeDef`: result kind of the entity-vs-enum namespace lookup. -/
inductive TypeDef where
  | Entity (e : EntityParsing.Entity)
  | Enum (e : GraphQLEnum)
deriving DecidableEq, Repr

/-- `Relationship`: a forward type reference or a derived edge. -/
inductive Relationship where
  | TypeDef (name : String)
  | DerivedFrom (name : String) (derived_from_field : String)
deriving DecidableEq, Repr

/-- `CapitalizedOptions` from `crate::capitalization`. -/
structure CapitalizedOptions where
  capitalized : String
  uncapitalized : String
deriving DecidableEq, Repr

/-- Modelled from the spec: `to_capitalized_options` of the `Capitalize`
helper (`crate::capitalization`, not among the given sources).  The
repository tests show `TestEnum` rendering as `Enums.testEnum`, so
`uncapitalized` lowers the first character and `capitalized` uppers it. -/
def to_capitalized_options (s : String) : CapitalizedOptions :=
  match s.data with
  | [] => ⟨"", ""⟩
  | c :: cs => ⟨String.mk (c.toUpper :: cs), String.mk (c.toLower :: cs)⟩

/-- `RescriptType`: the application-level (ReScript) type representation. -/
inductive RescriptType where
  | ID
  | Int
  | Float
  | BigInt
  | Address
  | String
  | Bool
  | EnumVariant (name : CapitalizedOptions)
  | Array (t : RescriptType)
  | Option (t : RescriptType)
  | Tuple (ts : List RescriptType)
deriving Repr

/-- `Schema::empty`. -/
def Schema.empty : Schema := ⟨[], []⟩

/-- `Schema::try_get_type_def`: resolve a name against the entity and enum
namespaces; exactly one must match. -/
def Schema.try_get_type_def (s : Schema) (name : String) : Except String TypeDef :=
  match s.entities.find? (fun e => e.name == name),
        s.enums.find? (fun e => e.name == name) with
  | none, none => .error ("No type definition " ++ name ++ " exists in schema")
  | some _, some _ =>
      .error ("Both an enum and an entity type definition " ++ name ++ " exist in schema")
  | some entity, none => .ok (.Entity entity)
  | none, some enm => .ok (.Enum enm)

/-- `UserDefinedFieldType::get_underlying_scalar`. -/
def UserDefinedFieldType.get_underlying_scalar : UserDefinedFieldType → GqlScalar
  | .Single gql_scalar => gql_scalar
  | .ListType field_type => field_type.get_underlying_scalar
  | .NonNullType field_type => field_type.get_underlying_scalar

/-- `UserDefinedFieldType::is_optional`: everything except `NonNullType`. -/
def UserDefinedFieldType.is_optional : UserDefinedFieldType → Bool
  | .NonNullType _ => false
  | _ => true

/-- `UserDefinedFieldType::validate_type`: the field-shape validation pass.
Lists may wrap only non-null element types, the element may not be a declared
entity, and non-null may not nest. -/
def UserDefinedFieldType.validate_type
    (t : UserDefinedFieldType) (schema : Schema) : Except String Unit :=
  match t with
  | .Single _ => .ok ()
  | .ListType field_type =>
    match field_type with
    | .NonNullType inner_field_type =>
      match inner_field_type with
      | .Single (.Custom name) => do
        let type_def ← schema.try_get_type_def name
        match type_def with
        | .Entity _ =>
          .error ("EE211: Arrays of entities is unsupported. Please use one of the methods for referencing entities outlined in the docs. The entity being referenced in the array is " ++ name ++ ".")
        | .Enum _ => field_type.validate_type schema
      | _ => field_type.validate_type schema
    | .Single gql_scalar =>
      .error ("EE208: Nullable scalars inside lists are unsupported. Please include a ! after your " ++ gql_scalar.to_string ++ " scalar")
    | .ListType _ =>
      .error "EE209: Nullable multidimensional lists types are unsupported, please include a ! for your inner list type eg. [[Int!]!]"
  | .NonNullType field_type =>
    match field_type with
    | .NonNullType _ =>
      .error "Nested Not Null types are unsupported. Please remove any sequential ! symbols after types in schema"
    | _ => field_type.validate_type schema

/-- `GqlScalar::to_postgres_type`: the scalar storage-type table. -/
def GqlScalar.to_postgres_type (g : GqlScalar) (schema : Schema) : Except Str Str :=
  match g with
  | .ID => .ok "text"
  | .String => .ok "text"
  | .Int => .ok "integer"
  | .Float => .ok "numeric"
  | .Boolean => .ok "boolean"
  | .Bytes => .ok "text"
  | .BigInt => .ok "numeric"
  | .Custom name => do
    let type_def ← schema.try_get_type_def name
    match type_def with
    | .Entity _ => .ok "text"
    | .Enum _ => .ok name

/-- `UserDefinedFieldType::to_postgres_type`: storage projection of the
recursive algebra. -/
def UserDefinedFieldType.to_postgres_type
    (t : UserDefinedFieldType) (schema : Schema) : Except String String :=
  match t with
  | .Single gql_scalar => gql_scalar.to_postgres_type schema
  | .ListType field_type =>
    match field_type with
    | .NonNullType non_null => do
      let inner ← non_null.to_postgres_type schema
      .ok (inner ++ "[]")
    | _ => .error "Unexpected invalid case. Only Not Null List values can be valid valid."
  | .NonNullType field_type => do
    let inner ← field_type.to_postgres_type schema
    .ok (inner ++ " NOT NULL")

/-- `GqlScalar::to_rescript_type`: the scalar application-type table. -/
def GqlScalar.to_rescript_type (g : GqlScalar) (schema : Schema) : Except Str RescriptType :=
  match g with
  | .ID => .ok .ID
  | .String => .ok .String
  | .Int => .ok .Int
  | .BigInt => .ok .BigInt
  | .Float => .ok .Float
  | .Bytes => .ok .String
  | .Boolean => .ok .Bool
  | .Custom name => do
    let type_def ← schema.try_get_type_def name
    match type_def with
    | .Entity _ => .ok .ID
    | .Enum _ => .ok (.EnumVariant (to_capitalized_options name))

/-- `UserDefinedFieldType::to_rescript_type`: application projection; only
types reached through the `NonNullType` arm are non-optional. -/
def UserDefinedFieldType.to_rescript_type
    (t : UserDefinedFieldType) (schema : Schema) : Except String RescriptType :=
  match t with
  | .NonNullType field_type =>
    match field_type with
    | .Single gql_scalar => gql_scalar.to_rescript_type schema
    | .ListType inner => do
      let r ← inner.to_rescript_type schema
      .ok (.Array r)
    | .NonNullType inner => inner.to_rescript_type schema
  | .Single gql_scalar => do
    let r ← gql_scalar.to_rescript_type schema
    .ok (.Option r)
  | .ListType field_type => do
    let r ← field_type.to_rescript_type schema
    .ok (.Option (.Array r))

/-- `FieldType::to_user_defined_field_type`: a derived field is canonically a
non-null list of non-null references to the target entity. -/
def FieldType.to_user_defined_field_type : FieldType → UserDefinedFieldType
  | .RegularField t => t
  | .DerivedFromField entity_name _ =>
    .NonNullType (.ListType (.NonNullType (.Single (.Custom entity_name))))

/-- `FieldType::validate_type`: derived fields were already validated at
construction, regular fields get the shape check. -/
def FieldType.validate_type (ft : FieldType) (schema : Schema) : Except String Unit :=
  match ft with
  | .DerivedFromField _ _ => .ok ()
  | .RegularField t => t.validate_type schema

/-- `FieldType::to_postgres_type`. -/
def FieldType.to_postgres_type (ft : FieldType) (schema : Schema) : Except String String :=
  ft.to_user_defined_field_type.to_postgres_type schema

/-- `FieldType::to_rescript_type`. -/
def FieldType.to_rescript_type (ft : FieldType) (schema : Schema) : Except String RescriptType :=
  ft.to_user_defined_field_type.to_rescript_type schema

/-- `FieldType::is_derived_from`. -/
def FieldType.is_derived_from : FieldType → Bool
  | .DerivedFromField _ _ => true
  | .RegularField _ => false

/-- `FieldType::is_optional`. -/
def FieldType.is_optional (ft : FieldType) : Bool :=
  ft.to_user_defined_field_type.is_optional

/-- `FieldType::get_underlying_scalar`. -/
def FieldType.get_underlying_scalar (ft : FieldType) : GqlScalar :=
  ft.to_user_defined_field_type.get_underlying_scalar

/-- `Field::get_relationship`: fields whose underlying scalar is `Custom`
contribute a forward type-def edge. -/
def Field.get_relationship (f : Field) : Option Relationship :=
  match f.field_type.get_underlying_scalar with
  | .Custom name => some (.TypeDef name)
  | _ => none

/-- `Field::get_relational_key`: the storage column name realizing a derived
relationship. -/
def Field.get_relational_key (f : Field) (schema : Schema) : Except String String :=
  match f.field_type with
  | .DerivedFromField entity_name derived_from_field =>
    match schema.entities.find? (fun e => e.name == entity_name) with
    | none => .error ("Unexpected, entity " ++ entity_name ++ " does not exist")
    | some ent =>
      match ent.fields.find? (fun fl => fl.name == derived_from_field) with
      | none =>
        .error ("Unexpected, field " ++ derived_from_field ++
          " does not exist on entity " ++ entity_name)
      | some entity_field =>
        match entity_field.field_type.get_underlying_scalar with
        | .Custom name => do
          let type_def ← schema.try_get_type_def name
          match type_def with
          | .Entity _ => .ok (derived_from_field ++ "_id")
          | .Enum _ =>
            .error "Unexpected, derived from field is neither an ID, String or bidirectional relationship"
        | .ID => .ok derived_from_field
        | .String => .ok derived_from_field
        | _ =>
          .error "Unexpected, derived from field is neither an ID, String or bidirectional relationship"
  | .RegularField _ => .ok f.name

/-- The body of the derived-from arm of `Entity::get_relationships`. -/
def Field.derived_edge (f : Field) : Option Relationship :=
  match f.field_type with
  | .DerivedFromField entity_name derived_from_field =>
    some (.DerivedFrom entity_name derived_from_field)
  | _ => none

/-- `Entity::get_relationships`: derived edges followed by forward type-def
edges. -/
def Entity.get_relationships (e : Entity) : List Relationship :=
  e.fields.filterMap Field.derived_edge ++ e.fields.filterMap Field.get_relationship

/-- A fallible loop body applied to every element, with `?`-style early
return, as in the Rust `for` loops over validation checks. -/
def allOk {α : Type} (f : α → Except String Unit) : List α → Except String Unit
  | [] => .ok ()
  | x :: xs =>
    match f x with
    | .error e => .error e
    | .ok _ => allOk f xs

/-- Collecting an iterator of results into `Result<Vec<_>>`: the first error
wins, otherwise all values are gathered in order. -/
def collectResults {α : Type} : List (Except String α) → Except String (List α)
  | [] => .ok []
  | x :: xs =>
    match x with
    | .error e => .error e
    | .ok a =>
      match collectResults xs with
      | .error e => .error e
      | .ok rest => .ok (a :: rest)

/-- `Entity::get_related_entities`: pair every entity-referencing field with
the referenced entity, failing on a dangling reference. -/
def Entity.get_related_entities (e : Entity) (other_entities : List Entity)
    (gql_enums : List GraphQLEnum) : Except String (List (Field × Entity)) :=
  collectResults (e.fields.filterMap (fun field =>
    match field.field_type.get_underlying_scalar with
    | .Custom name =>
      if (gql_enums.find? (fun g => g.name == name)).isSome then
        none
      else
        some (match other_entities.find? (fun ent => ent.name == name) with
          | some ent => .ok (field, ent)
          | none => .error ("Entity " ++ name ++ " does not exist"))
    | _ => none))

/-- `Entity::validate_field_types`. -/
def Entity.validate_field_types (e : Entity) (schema : Schema) : Except String Unit :=
  allOk (fun f => f.field_type.validate_type schema) e.fields

/-- `Schema::get_all_enum_type_names`. -/
def Schema.get_all_enum_type_names (s : Schema) : List String :=
  s.enums.map GraphQLEnum.name

/-- `Schema::get_all_enum_values`. -/
def Schema.get_all_enum_values (s : Schema) : List String :=
  (s.enums.map GraphQLEnum.values).flatten

/-- `Schema::get_all_entity_type_names`. -/
def Schema.get_all_entity_type_names (s : Schema) : List String :=
  s.entities.map Entity.name

/-- `Schema::get_all_entity_field_names`. -/
def Schema.get_all_entity_field_names (s : Schema) : List String :=
  (s.entities.map (fun e => e.fields.map Field.name)).flatten

/-- `Schema::check_enum_type_defs`: validation pass 1, the enum
reserved-name check. -/
def Schema.check_enum_type_defs (s : Schema) : Except String Schema :=
  let reserved_enum_types_used :=
    check_enums_for_internal_reserved_words s.get_all_enum_type_names
  if reserved_enum_types_used.isEmpty then
    .ok s
  else
    .error ("EE211: Schema contains the following reserved enum names: " ++
      String.intercalate ", " reserved_enum_types_used)

/-- `Schema::check_schema_for_reserved_words`: validation pass 2, the global
reserved-word check over enum names, enum values, entity names and field
names. -/
def Schema.check_schema_for_reserved_words (s : Schema) : Except String Schema :=
  let all_names := s.get_all_enum_type_names ++ s.get_all_enum_values ++
    s.get_all_entity_type_names ++ s.get_all_entity_field_names
  let reserved_words_used := check_names_from_schema_for_reserved_words all_names
  if reserved_words_used.isEmpty then
    .ok s
  else
    .error ("EE210: Schema contains the following reserved keywords: " ++
      String.intercalate ", " reserved_words_used)

/-- `Schema::check_duplicate_naming_between_enums_and_entities`: validation
pass 3, the namespace-collision check. -/
def Schema.check_duplicate_naming_between_enums_and_entities
    (s : Schema) : Except String Schema :=
  let duplicate_names := s.get_all_enum_type_names.filter
    (fun k => (s.entities.find? (fun e => e.name == k)).isSome)
  if !duplicate_names.isEmpty then
    .error ("EE213: Schema contains the following enums and entities with the same name, all type definitions must be unique in the schema: " ++
      String.intercalate ", " duplicate_names)
  else
    .ok s

/-- The body of the relationship loop in
`Schema::check_related_type_defs_exist`: `entity_name` is the name of the
entity whose relationship is being checked. -/
def Schema.check_relationship (s : Schema) (entity_name : String) :
    Relationship → Except String Unit
  | .TypeDef name => do
    let _ ← s.try_get_type_def name
    .ok ()
  | .DerivedFrom name derived_from_field => do
    let type_def ← s.try_get_type_def name
    match type_def with
    | .Enum _ =>
      .error ("Cannot derive field " ++ derived_from_field ++ " from enum " ++ name ++
        ". derivedFrom is intended to be used with Entity type definitions")
    | .Entity derived_entity =>
      match derived_entity.fields.find? (fun f => f.name == derived_from_field) with
      | none =>
        .error ("Derived field " ++ derived_from_field ++ " does not exist on entity " ++
          name ++ ".")
      | some field =>
        match field.field_type.get_underlying_scalar with
        | .Custom custom_name =>
          if custom_name == entity_name then
            .ok ()
          else
            .error ("Derived field " ++ derived_from_field ++ " on entity " ++ name ++
              " must either be an ID, String, or an Object relationship with Entity " ++
              entity_name)
        | .ID => .ok ()
        | .String => .ok ()
        | _ =>
          .error ("Derived field " ++ derived_from_field ++ " on entity " ++ name ++
            " must either be an ID, String, or an Object relationship with Entity " ++
            entity_name)

/-- `Schema::check_related_type_defs_exist`: validation pass 4, the
referential existence check. -/
def Schema.check_related_type_defs_exist (s : Schema) : Except String Schema :=
  match allOk (fun entity =>
      allOk (fun rel => s.check_relationship entity.name rel) entity.get_relationships)
      s.entities with
  | .error e => .error e
  | .ok _ => .ok s

/-- `Schema::validate_entity_field_types`: validation pass 5, the field-shape
check over every entity. -/
def Schema.validate_entity_field_types (s : Schema) : Except String Schema :=
  match allOk (fun e => e.validate_field_types s) s.entities with
  | .error e => .error e
  | .ok _ => .ok s

/-- `Schema::validate`: the ordered validation pipeline. -/
def Schema.validate (s : Schema) : Except String Schema := do
  let s1 ← s.check_enum_type_defs
  let s2 ← s1.check_schema_for_reserved_words
  let s3 ← s2.check_duplicate_naming_between_enums_and_entities
  let s4 ← s3.check_related_type_defs_exist
  s4.validate_entity_field_types

/-- `Schema::new`.  The duplicate-name rejection of
`unique_hashmap::from_vec_no_duplicates` is modelled from the spec (the
helper is not among the given sources): duplicate entity or enum names within
their own collection are build errors. -/
def Schema.new (entities : List Entity) (enums : List GraphQLEnum) : Except String Schema :=
  if (entities.map Entity.name).Nodup then
    if (enums.map GraphQLEnum.name).Nodup then
      (Schema.mk entities enums).validate
    else
      .error "Found enums with duplicate names"
  else
    .error "Found entities with duplicate names"

/-- `Entity::new`, with the duplicate-field rejection modelled from the spec
as in `Schema.new`. -/
def Entity.new (name : String) (fields : List Field) : Except String Entity :=
  if (fields.map Field.name).Nodup then
    .ok ⟨name, fields⟩
  else
    .error ("Found fields with duplicate names on Entity " ++ name)

/-- Filtering a list of values through `HashSet::insert` return values, as in
`GraphQLEnum::check_duplicate_values`: a value is kept exactly when `insert`
reports it was not yet in the set (and it is then added to the set). -/
def insert_filter : List String → List String → List String
  | [], _ => []
  | v :: vs, seen =>
    if v ∈ seen then insert_filter vs seen else v :: insert_filter vs (v :: seen)

/-- `GraphQLEnum::check_duplicate_values`: the candidate set is initialized
with every value of the enum (`self.values.clone().into_iter().collect()`),
then the values are filtered by the return value of `insert`. -/
def GraphQLEnum.check_duplicate_values (e : GraphQLEnum) : Except String GraphQLEnum :=
  let duplicate_values := insert_filter e.values e.values.dedup
  if !duplicate_values.isEmpty then
    .error ("EE212: Schema enum has duplicate values. Enum: " ++ e.name ++
      ", duplicate values: " ++ String.intercalate ", " duplicate_values)
  else
    .ok e

/-- `GraphQLEnum::check_valid_postgres_name`: the enum name and every value
must satisfy the storage-identifier grammar. -/
def GraphQLEnum.check_valid_postgres_name (e : GraphQLEnum) : Except String GraphQLEnum :=
  let values_to_check := [e.name] ++ e.values
  let invalid_names := values_to_check.filter (fun v => !is_valid_postgres_db_name v)
  if !invalid_names.isEmpty then
    .error ("EE214: Schema contains the enum names and/or values that does not match the following pattern: It must start with a letter. It can only contain letters, numbers, and underscores (no spaces). It must have a maximum length of 63 characters. Invalid names: " ++ String.intercalate ", " invalid_names)
  else
    .ok e

/-- `GraphQLEnum::new` / `GraphQLEnum::valididate`: duplicate-value check then
name-grammar check. -/
def GraphQLEnum.new (name : String) (values : List String) : Except String GraphQLEnum := do
  let e1 ← GraphQLEnum.check_duplicate_values ⟨name, values⟩
  e1.check_valid_postgres_name

/-! Section: Spec-side definitions

The following definitions transcribe the spec's wording (not the code) and
exist to be compared with the code-derived definitions above. -/

/-- Spec wording: every `ListType` wraps a `NonNullType`. -/
def spec_every_list_wraps_nonnull : UserDefinedFieldType → Bool
  | .Single _ => true
  | .ListType t =>
    (match t with | .NonNullType _ => true | _ => false) && spec_every_list_wraps_nonnull t
  | .NonNullType t => spec_every_list_wraps_nonnull t

/-- Spec wording: no `NonNullType` wraps another `NonNullType`. -/
def spec_no_nested_nonnull : UserDefinedFieldType → Bool
  | .Single _ => true
  | .ListType t => spec_no_nested_nonnull t
  | .NonNullType t =>
    (match t with | .NonNullType _ => false | _ => true) && spec_no_nested_nonnull t

/-- Spec wording: a list element (with its non-null wrapper stripped, if any)
is a reference to a declared entity. -/
def spec_elem_is_declared_entity (schema : Schema) (t : UserDefinedFieldType) : Bool :=
  match (match t with | .NonNullType u => u | u => u) with
  | .Single (.Custom n) => (schema.entities.find? (fun e => e.name == n)).isSome
  | _ => false

/-- Spec wording: no list element is a reference to a declared entity. -/
def spec_no_entity_list_element (schema : Schema) : UserDefinedFieldType → Bool
  | .Single _ => true
  | .ListType t =>
    !(spec_elem_is_declared_entity schema t) && spec_no_entity_list_element schema t
  | .NonNullType t => spec_no_entity_list_element schema t

/-- Spec wording of a legal field-type shape: every list wraps a non-null
type, non-null never nests, and no list element references a declared
entity. -/
def spec_legal_shape (schema : Schema) (t : UserDefinedFieldType) : Bool :=
  spec_every_list_wraps_nonnull t && spec_no_nested_nonnull t &&
    spec_no_entity_list_element schema t

/-- The underlying `Custom` reference of the type, if any, resolves in the
schema.  After validation pass 4 this holds of every field type the
field-shape pass inspects. -/
def custom_refs_resolve (schema : Schema) (t : UserDefinedFieldType) : Prop :=
  ∀ n, t.get_underlying_scalar = .Custom n → ∃ td, schema.try_get_type_def n = .ok td

/-- Spec wording for application projection: strip exactly one level of
optionality (a no-op when the projection is not optional). -/
def strip_one_option : RescriptType → RescriptType
  | .Option r => r
  | r => r

/-- Spec wording: run validation passes in order; a failing pass halts the
pipeline and its error is the result, later passes never run. -/
def runPassesFailFast : List (Schema → Except String Schema) → Schema → Except String Schema
  | [], s => .ok s
  | p :: ps, s =>
    match p s with
    | .error e => .error e
    | .ok s2 => runPassesFailFast ps s2

/-- The required pass order of the validation pipeline, per the spec. -/
def validationPasses : List (Schema → Except String Schema) :=
  [Schema.check_enum_type_defs,
   Schema.check_schema_for_reserved_words,
   Schema.check_duplicate_naming_between_enums_and_entities,
   Schema.check_related_type_defs_exist,
   Schema.validate_entity_field_types]

/-! Section: Concrete example schemas used as witnesses and counterexamples -/

/-- The spec's end-to-end example entity `User` with a derived field. -/
def userE : Entity := ⟨"User",
  [⟨"id", .RegularField (.NonNullType (.Single .ID))⟩,
   ⟨"username", .RegularField (.NonNullType (.Single .String))⟩,
   ⟨"posts", .DerivedFromField "Post" "author"⟩]⟩

/-- The spec's end-to-end example entity `Post` with a reciprocal entity
reference `author: User!`. -/
def postE : Entity := ⟨"Post",
  [⟨"id", .RegularField (.NonNullType (.Single .ID))⟩,
   ⟨"author", .RegularField (.NonNullType (.Single (.Custom "User")))⟩]⟩

/-- The spec's end-to-end example schema. -/
def sUP : Schema := ⟨[userE, postE], []⟩

/-- Variant of `postE` whose `author` field is `String!` instead of a
reciprocal entity reference. -/
def postStrE : Entity := ⟨"Post",
  [⟨"id", .RegularField (.NonNullType (.Single .ID))⟩,
   ⟨"author", .RegularField (.NonNullType (.Single .String))⟩]⟩

/-- Example schema whose derived-from target field is a `String!`. -/
def sUPStr : Schema := ⟨[userE, postStrE], []⟩

/-- A 64-character identifier: valid as a GraphQL name but one character too
long for the storage-identifier grammar. -/
def longName64 : String :=
  "aaaaaaaaaaaaaaaaaaaaaaaaaaaaaaaaaaaaaaaaaaaaaaaaaaaaaaaaaaaaaaaa"

/-- A small example enum. -/
def colorEnum : GraphQLEnum := ⟨"Color", ["RED", "GREEN"]⟩

/-- Example schema holding only the `Color` enum. -/
def sEnum : Schema := ⟨[], [colorEnum]⟩

/-! Section: Helper lemmas -/

theorem try_get_type_def_ok_entity {s : Schema} {n : String} {e : Entity} :
    s.try_get_type_def n = .ok (.Entity e) ↔
      s.entities.find? (fun x => x.name == n) = some e ∧
        s.enums.find? (fun x => x.name == n) = none := by
  unfold Schema.try_get_type_def
  cases h1 : s.entities.find? (fun x => x.name == n) <;>
    cases h2 : s.enums.find? (fun x => x.name == n) <;> simp

theorem try_get_type_def_ok_enum {s : Schema} {n : String} {g : GraphQLEnum} :
    s.try_get_type_def n = .ok (.Enum g) ↔
      s.entities.find? (fun x => x.name == n) = none ∧
        s.enums.find? (fun x => x.name == n) = some g := by
  unfold Schema.try_get_type_def
  cases h1 : s.entities.find? (fun x => x.name == n) <;>
    cases h2 : s.enums.find? (fun x => x.name == n) <;> simp

theorem allOk_eq_ok_iff {α : Type} (f : α → Except String Unit) (l : List α) :
    allOk f l = .ok () ↔ ∀ x ∈ l, f x = .ok () := by
  induction l with
  | nil => simp [allOk]
  | cons a as ih =>
    simp only [allOk, List.forall_mem_cons]
    cases h : f a with
    | error e => simp [h]
    | ok u => cases u; simp [h, ih]

theorem collectResults_isOk {α : Type} (l : List (Except String α))
    (h : ∀ x ∈ l, x.isOk = true) : (collectResults l).isOk = true := by
  induction l with
  | nil => rfl
  | cons a as ih =>
    have ha := h a (List.mem_cons_self a as)
    cases a with
    | error e => simp [Except.isOk, Except.toBool] at ha
    | ok v =>
      have hrest := ih (fun x hx => h x (List.mem_cons_of_mem _ hx))
      simp only [collectResults]
      cases hc : collectResults as with
      | error e => rw [hc] at hrest; simp [Except.isOk, Except.toBool] at hrest
      | ok rest => simp [Except.isOk, Except.toBool]

theorem validate_ok_iff_spec_legal (schema : Schema) :
    ∀ t : UserDefinedFieldType, custom_refs_resolve schema t →
      (t.validate_type schema = .ok () ↔ spec_legal_shape schema t = true) := by
  intro t
  induction t with
  | Single g =>
    intro _
    simp [UserDefinedFieldType.validate_type, spec_legal_shape,
      spec_every_list_wraps_nonnull, spec_no_nested_nonnull, spec_no_entity_list_element]
  | ListType ft ih =>
    intro hres
    have hres2 : custom_refs_resolve schema ft := fun n hn => hres n hn
    cases ft with
    | Single g2 =>
      simp [UserDefinedFieldType.validate_type, spec_legal_shape,
        spec_every_list_wraps_nonnull]
    | ListType u =>
      simp [UserDefinedFieldType.validate_type, spec_legal_shape,
        spec_every_list_wraps_nonnull]
    | NonNullType inner =>
      cases inner with
      | Single g3 =>
        cases g3 with
        | Custom n =>
          obtain ⟨td, htd⟩ := hres n rfl
          cases td with
          | Entity e2 =>
            obtain ⟨hent, henm⟩ := try_get_type_def_ok_entity.mp htd
            have hval : (UserDefinedFieldType.ListType
                (.NonNullType (.Single (.Custom n)))).validate_type schema =
                .error ("EE211: Arrays of entities is unsupported. Please use one of the methods for referencing entities outlined in the docs. The entity being referenced in the array is " ++ n ++ ".") := by
              simp only [UserDefinedFieldType.validate_type]
              rw [htd]
              rfl
            rw [hval]
            simp [spec_legal_shape, spec_no_entity_list_element,
              spec_elem_is_declared_entity, hent]
          | Enum g4 =>
            obtain ⟨hent, henm⟩ := try_get_type_def_ok_enum.mp htd
            have hval : (UserDefinedFieldType.ListType
                (.NonNullType (.Single (.Custom n)))).validate_type schema = .ok () := by
              simp only [UserDefinedFieldType.validate_type]
              rw [htd]
              rfl
            rw [hval]
            simp [spec_legal_shape, spec_every_list_wraps_nonnull, spec_no_nested_nonnull,
              spec_no_entity_list_element, spec_elem_is_declared_entity, hent]
        | ID =>
          simp [UserDefinedFieldType.validate_type, spec_legal_shape,
            spec_every_list_wraps_nonnull, spec_no_nested_nonnull,
            spec_no_entity_list_element, spec_elem_is_declared_entity]
        | String =>
          simp [UserDefinedFieldType.validate_type, spec_legal_shape,
            spec_every_list_wraps_nonnull, spec_no_nested_nonnull,
            spec_no_entity_list_element, spec_elem_is_declared_entity]
        | Int =>
          simp [UserDefinedFieldType.validate_type, spec_legal_shape,
            spec_every_list_wraps_nonnull, spec_no_nested_nonnull,
            spec_no_entity_list_element, spec_elem_is_declared_entity]
        | Float =>
          simp [UserDefinedFieldType.validate_type, spec_legal_shape,
            spec_every_list_wraps_nonnull, spec_no_nested_nonnull,
            spec_no_entity_list_element, spec_elem_is_declared_entity]
        | Boolean =>
          simp [UserDefinedFieldType.validate_type, spec_legal_shape,
            spec_every_list_wraps_nonnull, spec_no_nested_nonnull,
            spec_no_entity_list_element, spec_elem_is_declared_entity]
        | BigInt =>
          simp [UserDefinedFieldType.validate_type, spec_legal_shape,
            spec_every_list_wraps_nonnull, spec_no_nested_nonnull,
            spec_no_entity_list_element, spec_elem_is_declared_entity]
        | Bytes =>
          simp [UserDefinedFieldType.validate_type, spec_legal_shape,
            spec_every_list_wraps_nonnull, spec_no_nested_nonnull,
            spec_no_entity_list_element, spec_elem_is_declared_entity]
      | ListType v =>
        simpa [UserDefinedFieldType.validate_type, spec_legal_shape,
          spec_every_list_wraps_nonnull, spec_no_nested_nonnull,
          spec_no_entity_list_element, spec_elem_is_declared_entity] using ih hres2
      | NonNullType v =>
        simp [UserDefinedFieldType.validate_type, spec_legal_shape,
          spec_every_list_wraps_nonnull, spec_no_nested_nonnull,
          spec_no_entity_list_element, spec_elem_is_declared_entity]
  | NonNullType ft ih =>
    intro hres
    have hres2 : custom_refs_resolve schema ft := fun n hn => hres n hn
    cases ft with
    | Single g2 =>
      simp [UserDefinedFieldType.validate_type, spec_legal_shape,
        spec_every_list_wraps_nonnull, spec_no_nested_nonnull,
        spec_no_entity_list_element]
    | ListType u =>
      simpa [UserDefinedFieldType.validate_type, spec_legal_shape,
        spec_every_list_wraps_nonnull, spec_no_nested_nonnull,
        spec_no_entity_list_element] using ih hres2
    | NonNullType u =>
      simp [UserDefinedFieldType.validate_type, spec_legal_shape, spec_no_nested_nonnull]

/-! Section: Claim theorems -/

/-- C1: `validate_type` returns `Ok` exactly when the shape is legal in the
spec's sense — every `ListType` wraps a `NonNullType`, no `NonNullType` wraps
another `NonNullType`, and no list element references a declared entity —
provided the type's `Custom` reference (if any) resolves, which pass 4
guarantees before the shape pass runs; and each illegal shape yields the
corresponding error (EE208 nullable scalar in list, EE209 nullable nested
list, EE211 arrays of entities, and the nested non-null error). -/
theorem C1_validate_type_legal_shapes (schema : Schema) :
    (∀ t, custom_refs_resolve schema t →
      (t.validate_type schema = .ok () ↔ spec_legal_shape schema t = true)) ∧
    (∀ g, (UserDefinedFieldType.ListType (.Single g)).validate_type schema =
      .error ("EE208: Nullable scalars inside lists are unsupported. Please include a ! after your " ++ g.to_string ++ " scalar")) ∧
    (∀ u, (UserDefinedFieldType.ListType (.ListType u)).validate_type schema =
      .error "EE209: Nullable multidimensional lists types are unsupported, please include a ! for your inner list type eg. [[Int!]!]") ∧
    (∀ n e, schema.try_get_type_def n = .ok (.Entity e) →
      (UserDefinedFieldType.ListType
          (.NonNullType (.Single (.Custom n)))).validate_type schema =
        .error ("EE211: Arrays of entities is unsupported. Please use one of the methods for referencing entities outlined in the docs. The entity being referenced in the array is " ++ n ++ ".")) ∧
    (∀ u, (UserDefinedFieldType.NonNullType (.NonNullType u)).validate_type schema =
      .error "Nested Not Null types are unsupported. Please remove any sequential ! symbols after types in schema") := by
  refine ⟨validate_ok_iff_spec_legal schema, fun g => rfl, fun u => rfl, ?_, fun u => rfl⟩
  intro n e htd
  simp only [UserDefinedFieldType.validate_type]
  rw [htd]
  rfl

theorem C1_validate_type_legal_shapes_witness :
    ((UserDefinedFieldType.NonNullType
        (.ListType (.NonNullType (.Single .Int)))).validate_type sUP = .ok () ↔
      spec_legal_shape sUP
        (.NonNullType (.ListType (.NonNullType (.Single .Int)))) = true) ∧
    ((UserDefinedFieldType.ListType
        (.NonNullType (.Single (.Custom "User")))).validate_type sUP =
      .error ("EE211: Arrays of entities is unsupported. Please use one of the methods for referencing entities outlined in the docs. The entity being referenced in the array is " ++ "User" ++ ".")) :=
  ⟨(C1_validate_type_legal_shapes sUP).1 _ (fun _ hn => nomatch hn),
   (C1_validate_type_legal_shapes sUP).2.2.2.1 "User" userE rfl⟩

/-- C2: storage projection follows the spec's equations — the scalar table
(ID, String, Bytes to text; Int to integer; Float, BigInt to numeric;
Boolean to boolean; Custom resolving to an entity to text; Custom resolving
to an enum to the enum's own name), `ListType (NonNullType T)` maps to the
projection of `T` followed by `[]`, `NonNullType T` maps to the projection of
`T` followed by ` NOT NULL`; in particular
`NonNull (List (NonNull (Single Int)))` projects to `integer[] NOT NULL`, and
any `ListType` not wrapping a `NonNullType` is an error. -/
theorem C2_storage_projection (schema : Schema) :
    ((UserDefinedFieldType.Single .ID).to_postgres_type schema = .ok "text") ∧
    ((UserDefinedFieldType.Single .String).to_postgres_type schema = .ok "text") ∧
    ((UserDefinedFieldType.Single .Bytes).to_postgres_type schema = .ok "text") ∧
    ((UserDefinedFieldType.Single .Int).to_postgres_type schema = .ok "integer") ∧
    ((UserDefinedFieldType.Single .Float).to_postgres_type schema = .ok "numeric") ∧
    ((UserDefinedFieldType.Single .BigInt).to_postgres_type schema = .ok "numeric") ∧
    ((UserDefinedFieldType.Single .Boolean).to_postgres_type schema = .ok "boolean") ∧
    (∀ n e, schema.try_get_type_def n = .ok (.Entity e) →
      (UserDefinedFieldType.Single (.Custom n)).to_postgres_type schema = .ok "text") ∧
    (∀ n g, schema.try_get_type_def n = .ok (.Enum g) →
      (UserDefinedFieldType.Single (.Custom n)).to_postgres_type schema = .ok n ∧
        g.name = n) ∧
    (∀ t, (UserDefinedFieldType.ListType (.NonNullType t)).to_postgres_type schema =
      (t.to_postgres_type schema).map (fun inner => inner ++ "[]")) ∧
    (∀ t, (UserDefinedFieldType.NonNullType t).to_postgres_type schema =
      (t.to_postgres_type schema).map (fun inner => inner ++ " NOT NULL")) ∧
    ((UserDefinedFieldType.NonNullType
        (.ListType (.NonNullType (.Single .Int)))).to_postgres_type schema =
      .ok "integer[] NOT NULL") ∧
    (∀ g, ∃ msg, (UserDefinedFieldType.ListType (.Single g)).to_postgres_type schema =
      .error msg) ∧
    (∀ u, ∃ msg, (UserDefinedFieldType.ListType (.ListType u)).to_postgres_type schema =
      .error msg) := by
  refine ⟨rfl, rfl, rfl, rfl, rfl, rfl, rfl, ?_, ?_, ?_, ?_, rfl,
    fun g => ⟨_, rfl⟩, fun u => ⟨_, rfl⟩⟩
  · intro n e htd
    simp only [UserDefinedFieldType.to_postgres_type, GqlScalar.to_postgres_type]
    rw [htd]
    rfl
  · intro n g htd
    obtain ⟨hent, henm⟩ := try_get_type_def_ok_enum.mp htd
    have hname := List.find?_some henm
    refine ⟨?_, by simpa using hname⟩
    simp only [UserDefinedFieldType.to_postgres_type, GqlScalar.to_postgres_type]
    rw [htd]
    rfl
  · intro t
    cases h : t.to_postgres_type schema <;>
      simp only [UserDefinedFieldType.to_postgres_type, h, Except.map] <;> rfl
  · intro t
    cases h : t.to_postgres_type schema <;>
      simp only [UserDefinedFieldType.to_postgres_type, h, Except.map] <;> rfl

theorem C2_storage_projection_witness :
    ((UserDefinedFieldType.Single (.Custom "User")).to_postgres_type sUP = .ok "text") ∧
    ((UserDefinedFieldType.Single (.Custom "Color")).to_postgres_type sEnum =
      .ok "Color") :=
  ⟨(C2_storage_projection sUP).2.2.2.2.2.2.2.1 "User" userE rfl,
   ((C2_storage_projection sEnum).2.2.2.2.2.2.2.2.1 "Color" colorEnum rfl).1⟩

/-- C3: application projection re-derives nullability bottom-up — a `Single`
or `ListType` not directly wrapped in a `NonNullType` projects to an optional
value, `NonNullType` strips exactly one level of optionality from its child's
projection (stated for children that are themselves optional, i.e. not
another `NonNullType`, the only case where the child has a level of
optionality to strip), and the list equation applies the same rule one level
inward for elements; in particular `List (Single Int)` projects to an
optional array of optional ints and `NonNull (List (NonNull (Single Int)))`
projects to a non-optional array of non-optional ints. -/
theorem C3_application_projection_optionality (schema : Schema) :
    (∀ g, (UserDefinedFieldType.Single g).to_rescript_type schema =
      (g.to_rescript_type schema).map (fun r => RescriptType.Option r)) ∧
    (∀ t, (UserDefinedFieldType.ListType t).to_rescript_type schema =
      (t.to_rescript_type schema).map (fun r => RescriptType.Option (.Array r))) ∧
    (∀ t, t.is_optional = true →
      (UserDefinedFieldType.NonNullType t).to_rescript_type schema =
        (t.to_rescript_type schema).map strip_one_option) ∧
    ((UserDefinedFieldType.ListType (.Single .Int)).to_rescript_type schema =
      .ok (.Option (.Array (.Option .Int)))) ∧
    ((UserDefinedFieldType.NonNullType
        (.ListType (.NonNullType (.Single .Int)))).to_rescript_type schema =
      .ok (.Array .Int)) := by
  refine ⟨?_, ?_, ?_, rfl, rfl⟩
  · intro g
    cases h : g.to_rescript_type schema <;>
      simp only [UserDefinedFieldType.to_rescript_type, h, Except.map] <;> rfl
  · intro t
    cases h : t.to_rescript_type schema <;>
      simp only [UserDefinedFieldType.to_rescript_type, h, Except.map] <;> rfl
  · intro t hopt
    cases t with
    | NonNullType u => simp [UserDefinedFieldType.is_optional] at hopt
    | Single g =>
      cases h : g.to_rescript_type schema <;>
        simp only [UserDefinedFieldType.to_rescript_type, h, Except.map] <;> rfl
    | ListType u =>
      cases h : u.to_rescript_type schema <;>
        simp only [UserDefinedFieldType.to_rescript_type, h, Except.map] <;> rfl

theorem C3_application_projection_optionality_witness :
    (UserDefinedFieldType.NonNullType (.Single .Int)).to_rescript_type Schema.empty =
      ((UserDefinedFieldType.Single .Int).to_rescript_type Schema.empty).map
        strip_one_option :=
  (C3_application_projection_optionality Schema.empty).2.2.1 _ rfl

/-- C4: for a derived field, the relational key is the target field name with
`_id` appended when the target field's underlying scalar is a resolving
entity reference, and the target field name unchanged when the target field's
underlying scalar is ID or String. -/
theorem C4_relational_key (s : Schema) (fname en df n : String) (target : Entity)
    (tf : Field) (ent : Entity)
    (he : s.entities.find? (fun e => e.name == en) = some target)
    (hf : target.fields.find? (fun fl => fl.name == df) = some tf) :
    (tf.field_type.get_underlying_scalar = .Custom n →
      s.try_get_type_def n = .ok (.Entity ent) →
      (Field.mk fname (.DerivedFromField en df)).get_relational_key s =
        .ok (df ++ "_id")) ∧
    (tf.field_type.get_underlying_scalar = .ID →
      (Field.mk fname (.DerivedFromField en df)).get_relational_key s = .ok df) ∧
    (tf.field_type.get_underlying_scalar = .String →
      (Field.mk fname (.DerivedFromField en df)).get_relational_key s = .ok df) := by
  refine ⟨?_, ?_, ?_⟩
  · intro h1 h2
    simp only [Field.get_relational_key, he, hf, h1, h2]
    rfl
  · intro h1
    simp only [Field.get_relational_key, he, hf, h1]
  · intro h1
    simp only [Field.get_relational_key, he, hf, h1]

theorem C4_relational_key_witness :
    ((Field.mk "posts" (.DerivedFromField "Post" "author")).get_relational_key sUP =
      .ok ("author" ++ "_id")) ∧
    ((Field.mk "posts" (.DerivedFromField "Post" "author")).get_relational_key sUPStr =
      .ok "author") :=
  ⟨(C4_relational_key sUP "posts" "Post" "author" "User" postE
      ⟨"author", .RegularField (.NonNullType (.Single (.Custom "User")))⟩ userE
      rfl rfl).1 rfl rfl,
   (C4_relational_key sUPStr "posts" "Post" "author" "User" postStrE
      ⟨"author", .RegularField (.NonNullType (.Single .String))⟩ userE
      rfl rfl).2.2 rfl⟩

theorem except_bind_ok {α β : Type} (a : α) (f : α → Except String β) :
    (Bind.bind (Except.ok a) f : Except String β) = f a := rfl

theorem except_bind_error {α β : Type} (e : String) (f : α → Except String β) :
    (Bind.bind (Except.error e) f : Except String β) = .error e := rfl

/-- C5: the validation pipeline runs its five passes in the fixed order with
fail-fast semantics between passes — the pipeline equals running the pass
list `validationPasses` in order where the first failing pass's error is the
result and later passes never run — and every pass either returns the schema
unchanged or an error, so a successful pipeline is the identity. -/
theorem C5_validation_fail_fast (s : Schema) :
    s.validate = runPassesFailFast validationPasses s ∧
    (s.check_enum_type_defs = .ok s ∨ ∃ e, s.check_enum_type_defs = .error e) ∧
    (s.check_schema_for_reserved_words = .ok s ∨
      ∃ e, s.check_schema_for_reserved_words = .error e) ∧
    (s.check_duplicate_naming_between_enums_and_entities = .ok s ∨
      ∃ e, s.check_duplicate_naming_between_enums_and_entities = .error e) ∧
    (s.check_related_type_defs_exist = .ok s ∨
      ∃ e, s.check_related_type_defs_exist = .error e) ∧
    (s.validate_entity_field_types = .ok s ∨
      ∃ e, s.validate_entity_field_types = .error e) := by
  refine ⟨?_, ?_, ?_, ?_, ?_, ?_⟩
  · cases h1 : s.check_enum_type_defs with
    | error e =>
      simp [Schema.validate, runPassesFailFast, validationPasses, h1, except_bind_error]
    | ok s1 =>
      cases h2 : s1.check_schema_for_reserved_words with
      | error e =>
        simp [Schema.validate, runPassesFailFast, validationPasses, h1, h2,
          except_bind_ok, except_bind_error]
      | ok s2 =>
        cases h3 : s2.check_duplicate_naming_between_enums_and_entities with
        | error e =>
          simp [Schema.validate, runPassesFailFast, validationPasses, h1, h2, h3,
            except_bind_ok, except_bind_error]
        | ok s3 =>
          cases h4 : s3.check_related_type_defs_exist with
          | error e =>
            simp [Schema.validate, runPassesFailFast, validationPasses, h1, h2, h3, h4,
              except_bind_ok, except_bind_error]
          | ok s4 =>
            cases h5 : s4.validate_entity_field_types with
            | error e =>
              simp [Schema.validate, runPassesFailFast, validationPasses, h1, h2, h3,
                h4, h5, except_bind_ok, except_bind_error]
            | ok s5 =>
              simp [Schema.validate, runPassesFailFast, validationPasses, h1, h2, h3,
                h4, h5, except_bind_ok, except_bind_error]
  · simp only [Schema.check_enum_type_defs]
    split
    · exact Or.inl rfl
    · exact Or.inr ⟨_, rfl⟩
  · simp only [Schema.check_schema_for_reserved_words]
    split
    · exact Or.inl rfl
    · exact Or.inr ⟨_, rfl⟩
  · simp only [Schema.check_duplicate_naming_between_enums_and_entities]
    split
    · exact Or.inr ⟨_, rfl⟩
    · exact Or.inl rfl
  · cases h : allOk (fun entity => allOk
        (fun rel => s.check_relationship entity.name rel) entity.get_relationships)
        s.entities with
    | error e => exact Or.inr ⟨e, by simp [Schema.check_related_type_defs_exist, h]⟩
    | ok u => exact Or.inl (by simp [Schema.check_related_type_defs_exist, h])
  · cases h : allOk (fun e => e.validate_field_types s) s.entities with
    | error e => exact Or.inr ⟨e, by simp [Schema.validate_entity_field_types, h]⟩
    | ok u => exact Or.inl (by simp [Schema.validate_entity_field_types, h])

/-- C6: evaluation at the failing input — an enum whose values list contains
the same value twice is accepted by `GraphQLEnum.new` instead of being
rejected with EE212, because `check_duplicate_values` initializes its
candidate set with every value of the enum, so `insert` always reports the
value as already present and no duplicate is ever collected. -/
theorem C6_duplicate_enum_values_accepted :
    GraphQLEnum.new "MyEnum" ["DUP", "DUP"] = .ok ⟨"MyEnum", ["DUP", "DUP"]⟩ ∧
    GraphQLEnum.check_duplicate_values ⟨"MyEnum", ["DUP", "DUP"]⟩ =
      .ok ⟨"MyEnum", ["DUP", "DUP"]⟩ := ⟨rfl, rfl⟩

/-- C7: counterexample — a schema whose only entity carries a 64-character
name (one character beyond the storage-identifier limit) is constructed and
validated successfully even though the name violates the grammar; entity and
field names are never checked against `is_valid_postgres_db_name`. -/
theorem C7_counterexample_long_entity_name :
    Schema.new [Entity.mk longName64 []] [] =
      .ok (Schema.mk [Entity.mk longName64 []] []) ∧
    is_valid_postgres_db_name longName64 = false := ⟨rfl, rfl⟩

theorem insert_filter_eq_nil (l seen : List String) (hsub : ∀ v ∈ l, v ∈ seen) :
    insert_filter l seen = [] := by
  induction l with
  | nil => rfl
  | cons a as ih =>
    have ha : a ∈ seen := hsub a (List.mem_cons_self a as)
    simp only [insert_filter, if_pos ha]
    exact ih (fun v hv => hsub v (List.mem_cons_of_mem _ hv))

theorem check_duplicate_values_always_ok (e : GraphQLEnum) :
    e.check_duplicate_values = .ok e := by
  unfold GraphQLEnum.check_duplicate_values
  rw [insert_filter_eq_nil e.values e.values.dedup (fun v hv => List.mem_dedup.mpr hv)]
  rfl

theorem check_valid_postgres_name_ok_forall {e u : GraphQLEnum}
    (h : e.check_valid_postgres_name = .ok u) :
    ∀ v ∈ [e.name] ++ e.values, is_valid_postgres_db_name v = true := by
  unfold GraphQLEnum.check_valid_postgres_name at h
  dsimp only at h
  cases hf : ([e.name] ++ e.values).filter (fun v => !is_valid_postgres_db_name v) with
  | nil =>
    intro v hv
    have := List.filter_eq_nil_iff.mp hf v hv
    simpa using this
  | cons a as =>
    rw [hf] at h
    simp at h

/-- C7: amended claim — the storage-identifier grammar is enforced only for
enum names and enum values, at enum construction: whenever `GraphQLEnum.new`
succeeds, the enum name and every value match the grammar.  Entity names and
field names are not checked against the grammar anywhere in schema
construction or validation. -/
theorem C7_enum_identifier_grammar (n : String) (vs : List String) (g : GraphQLEnum)
    (h : GraphQLEnum.new n vs = .ok g) :
    is_valid_postgres_db_name n = true ∧
      ∀ v ∈ vs, is_valid_postgres_db_name v = true := by
  unfold GraphQLEnum.new at h
  rw [check_duplicate_values_always_ok, except_bind_ok] at h
  have hall := check_valid_postgres_name_ok_forall h
  exact ⟨hall n (by simp), fun v hv => hall v (by simp [hv])⟩

theorem C7_enum_identifier_grammar_witness :
    GraphQLEnum.new "Color" ["RED", "GREEN"] = .ok colorEnum ∧
    is_valid_postgres_db_name "Color" = true ∧
    ∀ v ∈ ["RED", "GREEN"], is_valid_postgres_db_name v = true :=
  ⟨rfl, C7_enum_identifier_grammar "Color" ["RED", "GREEN"] colorEnum rfl⟩

/-- C9: counterexample — projecting a field whose type is `DerivedFromField`
to a storage type does produce a column type: `to_postgres_type` treats the
derived field as its canonical non-null list of non-null entity references
and yields `text[] NOT NULL`. -/
theorem C9_counterexample_derived_storage_projected :
    (FieldType.DerivedFromField "Post" "author").to_postgres_type sUP =
      .ok "text[] NOT NULL" := rfl

/-- C9: amended claim — a `DerivedFromField` is not excluded by the storage
projection function itself: `to_postgres_type` projects its canonical shape
to `text[] NOT NULL`; the exclusion from stored columns is signalled to
callers through `is_derived_from = true`; application projection includes the
derived field as a non-optional collection (array) of related-entity ids. -/
theorem C9_derived_field_projection (s : Schema) (en df : String) (e : Entity)
    (h : s.try_get_type_def en = .ok (.Entity e)) :
    (FieldType.DerivedFromField en df).is_derived_from = true ∧
    (FieldType.DerivedFromField en df).to_postgres_type s = .ok "text[] NOT NULL" ∧
    (FieldType.DerivedFromField en df).to_rescript_type s = .ok (.Array .ID) := by
  refine ⟨rfl, ?_, ?_⟩
  · simp only [FieldType.to_postgres_type, FieldType.to_user_defined_field_type,
      UserDefinedFieldType.to_postgres_type, GqlScalar.to_postgres_type]
    rw [h]
    rfl
  · simp only [FieldType.to_rescript_type, FieldType.to_user_defined_field_type,
      UserDefinedFieldType.to_rescript_type, GqlScalar.to_rescript_type]
    rw [h]
    rfl

theorem check_enum_type_defs_ok_eq {s u : Schema}
    (h : s.check_enum_type_defs = .ok u) : u = s := by
  unfold Schema.check_enum_type_defs at h
  dsimp only at h
  split at h
  · injection h with h2; exact h2.symm
  · exact absurd h (by simp)

theorem check_schema_for_reserved_words_ok_eq {s u : Schema}
    (h : s.check_schema_for_reserved_words = .ok u) : u = s := by
  unfold Schema.check_schema_for_reserved_words at h
  dsimp only at h
  split at h
  · injection h with h2; exact h2.symm
  · exact absurd h (by simp)

theorem check_duplicate_naming_ok_eq {s u : Schema}
    (h : s.check_duplicate_naming_between_enums_and_entities = .ok u) : u = s := by
  unfold Schema.check_duplicate_naming_between_enums_and_entities at h
  dsimp only at h
  split at h
  · exact absurd h (by simp)
  · injection h with h2; exact h2.symm

theorem check_related_type_defs_exist_ok_eq {s u : Schema}
    (h : s.check_related_type_defs_exist = .ok u) : u = s := by
  unfold Schema.check_related_type_defs_exist at h
  cases hall : allOk (fun entity => allOk
      (fun rel => s.check_relationship entity.name rel) entity.get_relationships)
      s.entities with
  | error e => rw [hall] at h; exact absurd h (by simp)
  | ok v => rw [hall] at h; injection h with h2; exact h2.symm

theorem validate_ok_elim {s t : Schema} (h : s.validate = .ok t) :
    s.check_duplicate_naming_between_enums_and_entities = .ok s ∧
    s.check_related_type_defs_exist = .ok s := by
  unfold Schema.validate at h
  cases h1 : s.check_enum_type_defs with
  | error e => rw [h1, except_bind_error] at h; exact absurd h (by simp)
  | ok s1 =>
    have hs1 : s1 = s := check_enum_type_defs_ok_eq h1
    rw [h1, except_bind_ok, hs1] at h
    cases h2 : s.check_schema_for_reserved_words with
    | error e => rw [h2, except_bind_error] at h; exact absurd h (by simp)
    | ok s2 =>
      have hs2 : s2 = s := check_schema_for_reserved_words_ok_eq h2
      rw [h2, except_bind_ok, hs2] at h
      cases h3 : s.check_duplicate_naming_between_enums_and_entities with
      | error e => rw [h3, except_bind_error] at h; exact absurd h (by simp)
      | ok s3 =>
        have hs3 : s3 = s := check_duplicate_naming_ok_eq h3
        rw [h3, except_bind_ok, hs3] at h
        refine ⟨by rw [hs3], ?_⟩
        cases h4 : s.check_related_type_defs_exist with
        | error e => rw [h4, except_bind_error] at h; exact absurd h (by simp)
        | ok s4 =>
          have hs4 : s4 = s := check_related_type_defs_exist_ok_eq h4
          rw [hs4]

theorem no_enum_entity_collision {s : Schema}
    (h3 : s.check_duplicate_naming_between_enums_and_entities = .ok s) :
    ∀ g ∈ s.enums, s.entities.find? (fun e => e.name == g.name) = none := by
  unfold Schema.check_duplicate_naming_between_enums_and_entities at h3
  dsimp only at h3
  cases hf : s.get_all_enum_type_names.filter
      (fun k => (s.entities.find? (fun e => e.name == k)).isSome) with
  | cons a as => rw [hf] at h3; simp at h3
  | nil =>
    intro g hg
    have hmem : g.name ∈ s.get_all_enum_type_names := by
      simp only [Schema.get_all_enum_type_names]
      exact List.mem_map.mpr ⟨g, hg, rfl⟩
    have hnot := List.filter_eq_nil_iff.mp hf g.name hmem
    cases hfind : s.entities.find? (fun e => e.name == g.name) with
    | none => rfl
    | some x => rw [hfind] at hnot; simp at hnot

theorem related_checks_all_ok {s : Schema}
    (h4 : s.check_related_type_defs_exist = .ok s) :
    ∀ e ∈ s.entities, ∀ rel ∈ e.get_relationships,
      s.check_relationship e.name rel = .ok () := by
  unfold Schema.check_related_type_defs_exist at h4
  cases hall : allOk (fun entity => allOk
      (fun rel => s.check_relationship entity.name rel) entity.get_relationships)
      s.entities with
  | error e2 => rw [hall] at h4; exact absurd h4 (by simp)
  | ok v =>
    cases v
    have houter := (allOk_eq_ok_iff _ _).mp hall
    intro e he rel hrel
    exact (allOk_eq_ok_iff _ _).mp (houter e he) rel hrel

theorem check_relationship_typedef_elim {s : Schema} {ename name : String}
    (h : s.check_relationship ename (.TypeDef name) = .ok ()) :
    ∃ td, s.try_get_type_def name = .ok td := by
  simp only [Schema.check_relationship] at h
  cases htd : s.try_get_type_def name with
  | error e2 => rw [htd, except_bind_error] at h; exact absurd h (by simp)
  | ok td => exact ⟨td, rfl⟩

theorem check_relationship_derived_elim {s : Schema} {ename en df : String}
    (h : s.check_relationship ename (.DerivedFrom en df) = .ok ()) :
    ∃ de tf, s.try_get_type_def en = .ok (.Entity de) ∧
      de.fields.find? (fun f => f.name == df) = some tf ∧
      (tf.field_type.get_underlying_scalar = .Custom ename ∨
        tf.field_type.get_underlying_scalar = .ID ∨
        tf.field_type.get_underlying_scalar = .String) := by
  simp only [Schema.check_relationship] at h
  cases htd : s.try_get_type_def en with
  | error e2 => rw [htd, except_bind_error] at h; exact absurd h (by simp)
  | ok td =>
    rw [htd, except_bind_ok] at h
    cases td with
    | Enum g => simp at h
    | Entity de =>
      dsimp only at h
      cases hfind : de.fields.find? (fun f => f.name == df) with
      | none => simp only [hfind] at h; exact absurd h (by simp)
      | some tf =>
        simp only [hfind] at h
        refine ⟨de, tf, rfl, hfind, ?_⟩
        cases hsc : tf.field_type.get_underlying_scalar with
        | Custom cn =>
          simp only [hsc] at h
          cases hb : cn == ename with
          | false => simp [hb] at h
          | true =>
            have hcn : cn = ename := by simpa using hb
            rw [hcn]
            exact Or.inl rfl
        | ID => exact Or.inr (Or.inl rfl)
        | String => exact Or.inr (Or.inr rfl)
        | Int => simp [hsc] at h
        | Float => simp [hsc] at h
        | Boolean => simp [hsc] at h
        | BigInt => simp [hsc] at h
        | Bytes => simp [hsc] at h

theorem entity_resolves_to_entity {s : Schema}
    (h3 : s.check_duplicate_naming_between_enums_and_entities = .ok s)
    {e : Entity} (he : e ∈ s.entities) :
    ∃ x, s.try_get_type_def e.name = .ok (.Entity x) := by
  have hsome : (s.entities.find? (fun x => x.name == e.name)).isSome := by
    rw [List.find?_isSome]
    exact ⟨e, he, by simp⟩
  obtain ⟨x, hx⟩ := Option.isSome_iff_exists.mp hsome
  have hnone : s.enums.find? (fun g => g.name == e.name) = none := by
    cases henf : s.enums.find? (fun g => g.name == e.name) with
    | none => rfl
    | some g =>
      have hgmem := List.mem_of_find?_eq_some henf
      have hgname : g.name = e.name := by simpa using List.find?_some henf
      have := no_enum_entity_collision h3 g hgmem
      rw [hgname] at this
      rw [this] at hx
      exact absurd hx (by simp)
  exact ⟨x, try_get_type_def_ok_entity.mpr ⟨hx, hnone⟩⟩

theorem C9_derived_field_projection_witness :
    (FieldType.DerivedFromField "User" "posts").is_derived_from = true ∧
    (FieldType.DerivedFromField "User" "posts").to_postgres_type sUP =
      .ok "text[] NOT NULL" ∧
    (FieldType.DerivedFromField "User" "posts").to_rescript_type sUP =
      .ok (.Array .ID) :=
  C9_derived_field_projection sUP "User" "posts" userE rfl

/-- C8: relationship resolution is total on validated schemas — for every
schema that passes `validate`, `get_relational_key` succeeds on every derived
field (its error branches are unreachable because pass 4 enforced the target
entity and field exist and the target field's underlying scalar is ID, String
or a reciprocal entity reference), and `get_related_entities` succeeds on
every entity. -/
theorem C8_relationship_resolution_total (s t : Schema) (h : s.validate = .ok t) :
    (∀ e ∈ s.entities, ∀ f ∈ e.fields, f.field_type.is_derived_from = true →
      (f.get_relational_key s).isOk = true) ∧
    (∀ e ∈ s.entities, (e.get_related_entities s.entities s.enums).isOk = true) := by
  obtain ⟨h3, h4⟩ := validate_ok_elim h
  have hrel := related_checks_all_ok h4
  constructor
  · intro e he f hf hdf
    cases hft : f.field_type with
    | RegularField t2 => rw [hft] at hdf; simp [FieldType.is_derived_from] at hdf
    | DerivedFromField en df =>
      have hDmem : Relationship.DerivedFrom en df ∈ e.get_relationships := by
        refine List.mem_append_left _ (List.mem_filterMap.mpr ⟨f, hf, ?_⟩)
        simp [Field.derived_edge, hft]
      have hchk := hrel e he _ hDmem
      obtain ⟨de, tf, htry, hfind, hsc⟩ := check_relationship_derived_elim hchk
      obtain ⟨hentfind, henumfind⟩ := try_get_type_def_ok_entity.mp htry
      simp only [Field.get_relational_key, hft, hentfind, hfind]
      rcases hsc with hsc | hsc | hsc
      · obtain ⟨x, htry2⟩ := entity_resolves_to_entity h3 he
        simp only [hsc, htry2, except_bind_ok]
        rfl
      · simp only [hsc]
        rfl
      · simp only [hsc]
        rfl
  · intro e he
    unfold Entity.get_related_entities
    apply collectResults_isOk
    intro x hx
    obtain ⟨field, hfmem, hFx⟩ := List.mem_filterMap.mp hx
    cases hsc : field.field_type.get_underlying_scalar with
    | Custom name =>
      simp only [hsc] at hFx
      cases henum : (s.enums.find? (fun g => g.name == name)).isSome with
      | true => simp [henum] at hFx
      | false =>
        simp only [henum] at hFx
        have hT : Relationship.TypeDef name ∈ e.get_relationships := by
          refine List.mem_append_right _ (List.mem_filterMap.mpr ⟨field, hfmem, ?_⟩)
          simp [Field.get_relationship, hsc]
        obtain ⟨td, htd⟩ := check_relationship_typedef_elim (hrel e he _ hT)
        cases td with
        | Enum g =>
          obtain ⟨hn1, hn2⟩ := try_get_type_def_ok_enum.mp htd
          rw [hn2] at henum
          simp at henum
        | Entity x2 =>
          obtain ⟨hn1, hn2⟩ := try_get_type_def_ok_entity.mp htd
          rw [hn1] at hFx
          simp at hFx
          subst hFx
          rfl
    | ID => simp [hsc] at hFx
    | String => simp [hsc] at hFx
    | Int => simp [hsc] at hFx
    | Float => simp [hsc] at hFx
    | Boolean => simp [hsc] at hFx
    | BigInt => simp [hsc] at hFx
    | Bytes => simp [hsc] at hFx

theorem C8_relationship_resolution_total_witness :
    ((Field.mk "posts" (.DerivedFromField "Post" "author")).get_relational_key
      sUP).isOk = true ∧
    (userE.get_related_entities sUP.entities sUP.enums).isOk = true := by
  have h := C8_relationship_resolution_total sUP sUP rfl
  exact ⟨h.1 userE (by simp [sUP]) ⟨"posts", .DerivedFromField "Post" "author"⟩
    (by simp [userE]) rfl, h.2 userE (by simp [sUP])⟩

theorem derived_edge_isSome_eq (f : Field) :
    (f.derived_edge).isSome = f.field_type.is_derived_from := by
  cases hft : f.field_type <;> simp [Field.derived_edge, FieldType.is_derived_from, hft]

theorem length_filterMap_eq_length_filter {α β : Type} (g : α → Option β) (l : List α) :
    (l.filterMap g).length = (l.filter (fun x => (g x).isSome)).length := by
  induction l with
  | nil => rfl
  | cons a as ih =>
    cases hg : g a <;> simp [List.filterMap_cons, hg, List.filter_cons, ih]

/-- C10: for each field whose type is `DerivedFromField`, `get_relationships`
returns two relationships rather than one — a `DerivedFrom` edge plus a
forward `TypeDef` edge naming the same target entity, because the underlying
scalar of a `DerivedFromField` is the `Custom` scalar of its target entity —
while a field with a built-in underlying scalar contributes no
relationship. -/
theorem C10_derived_field_two_relationships (e : Entity) :
    (e.get_relationships.length =
      (e.fields.filter (fun f => f.field_type.is_derived_from)).length +
      (e.fields.filter (fun f => (f.get_relationship).isSome)).length) ∧
    (∀ en df, (FieldType.DerivedFromField en df).get_underlying_scalar = .Custom en) ∧
    (∀ f ∈ e.fields, ∀ en df, f.field_type = .DerivedFromField en df →
      f.get_relationship = some (.TypeDef en) ∧
      Relationship.DerivedFrom en df ∈ e.get_relationships ∧
      Relationship.TypeDef en ∈ e.get_relationships) ∧
    (∀ f ∈ e.fields, (∀ n, f.field_type.get_underlying_scalar ≠ .Custom n) →
      f.get_relationship = none ∧ f.derived_edge = none) := by
  refine ⟨?_, fun en df => rfl, ?_, ?_⟩
  · unfold Entity.get_relationships
    rw [List.length_append, length_filterMap_eq_length_filter,
      length_filterMap_eq_length_filter]
    congr 1
    exact congrArg List.length (List.filter_congr (fun f _ => derived_edge_isSome_eq f))
  · intro f hf en df hft
    refine ⟨?_, ?_, ?_⟩
    · simp [Field.get_relationship, hft, FieldType.get_underlying_scalar,
        FieldType.to_user_defined_field_type, UserDefinedFieldType.get_underlying_scalar]
    · exact List.mem_append_left _
        (List.mem_filterMap.mpr ⟨f, hf, by simp [Field.derived_edge, hft]⟩)
    · refine List.mem_append_right _ (List.mem_filterMap.mpr ⟨f, hf, ?_⟩)
      simp [Field.get_relationship, hft, FieldType.get_underlying_scalar,
        FieldType.to_user_defined_field_type, UserDefinedFieldType.get_underlying_scalar]
  · intro f hf hno
    constructor
    · unfold Field.get_relationship
      cases hsc : f.field_type.get_underlying_scalar with
      | Custom n => exact absurd hsc (hno n)
      | ID => rfl
      | String => rfl
      | Int => rfl
      | Float => rfl
      | Boolean => rfl
      | BigInt => rfl
      | Bytes => rfl
    · unfold Field.derived_edge
      cases hft : f.field_type with
      | DerivedFromField en df =>
        refine absurd ?_ (hno en)
        simp [hft, FieldType.get_underlying_scalar,
          FieldType.to_user_defined_field_type, UserDefinedFieldType.get_underlying_scalar]
      | RegularField t2 => rfl

theorem C10_derived_field_two_relationships_witness :
    (Field.mk "posts" (.DerivedFromField "Post" "author")).get_relationship =
      some (.TypeDef "Post") ∧
    Relationship.DerivedFrom "Post" "author" ∈ userE.get_relationships ∧
    Relationship.TypeDef "Post" ∈ userE.get_relationships :=
  (C10_derived_field_two_relationships userE).2.2.1
    ⟨"posts", .DerivedFromField "Post" "author"⟩ (by simp [userE]) "Post" "author" rfl

end EntityParsing
